import Mathlib

/-! Verification development for the fseventwatcher repository.

A shallow embedding of `fseventwatcher.py`: the pollable filesystem event
handler (a lock-guarded activity bit plus per-kind watch flags), the
restart dispatch routine `FSEventWatcher._restart_processes`, one
iteration of the `runforever` tick loop, and the startup sequence of
`main`.  Side effects are made explicit: RPC calls and printed messages
are collected as traces, the handler's activity bit is threaded as state,
and a Python exception escaping a `try` block is an explicit value. -/

namespace Fseventwatcher

/-! Filesystem event kinds dispatched by the watchdog observer. -/

/-- The four event kinds the watchdog library classifies changes into. -/
inductive EventKind
  | moved
  | created
  | deleted
  | modified
deriving DecidableEq, Repr

/-- State of `PollableFileSystemEventHandler`: the four watch flags fixed
by `__init__` and the lock-guarded `_activity_occurred` bit.  The lock
only serializes the `mark`/`unmark` critical sections, so in this
sequential embedding it has no separate representation. -/
structure PollableFileSystemEventHandler where
  watch_moved : Bool
  watch_created : Bool
  watch_deleted : Bool
  watch_modified : Bool
  activity_occurred : Bool
deriving DecidableEq, Repr

namespace PollableFileSystemEventHandler

/-- `__init__`: store the four watch flags; `_activity_occurred` starts false. -/
def init (m c d md : Bool) : PollableFileSystemEventHandler :=
  ⟨m, c, d, md, false⟩

/-- `mark_activity_occurred`: under the lock, remember the current flag,
set it to `True`, and return the remembered value.  Result is the pair
(returned value, updated handler). -/
def mark_activity_occurred (h : PollableFileSystemEventHandler) :
    Bool × PollableFileSystemEventHandler :=
  (h.activity_occurred,
   ⟨h.watch_moved, h.watch_created, h.watch_deleted, h.watch_modified, true⟩)

/-- `unmark_activity_occurred`: under the lock, remember the current flag,
reset it to `False`, and return the remembered value. -/
def unmark_activity_occurred (h : PollableFileSystemEventHandler) :
    Bool × PollableFileSystemEventHandler :=
  (h.activity_occurred,
   ⟨h.watch_moved, h.watch_created, h.watch_deleted, h.watch_modified, false⟩)

/-- `on_moved`: the base-class method is a no-op; if `watch_moved` is set,
call `mark_activity_occurred`.  The Bool records whether `mark` was called. -/
def on_moved (h : PollableFileSystemEventHandler) :
    PollableFileSystemEventHandler × Bool :=
  if h.watch_moved then ((h.mark_activity_occurred).2, true) else (h, false)

/-- `on_created`: mark the activity bit exactly when `watch_created` is set. -/
def on_created (h : PollableFileSystemEventHandler) :
    PollableFileSystemEventHandler × Bool :=
  if h.watch_created then ((h.mark_activity_occurred).2, true) else (h, false)

/-- `on_deleted`: mark the activity bit exactly when `watch_deleted` is set. -/
def on_deleted (h : PollableFileSystemEventHandler) :
    PollableFileSystemEventHandler × Bool :=
  if h.watch_deleted then ((h.mark_activity_occurred).2, true) else (h, false)

/-- `on_modified`: mark the activity bit exactly when `watch_modified` is set. -/
def on_modified (h : PollableFileSystemEventHandler) :
    PollableFileSystemEventHandler × Bool :=
  if h.watch_modified then ((h.mark_activity_occurred).2, true) else (h, false)

/-- The watch flag consulted for a given event kind. -/
def watches (h : PollableFileSystemEventHandler) : EventKind → Bool
  | .moved => h.watch_moved
  | .created => h.watch_created
  | .deleted => h.watch_deleted
  | .modified => h.watch_modified

/-- The watchdog observer dispatches an incoming event to the handler
method of its kind. -/
def on_event (h : PollableFileSystemEventHandler) :
    EventKind → PollableFileSystemEventHandler × Bool
  | .moved => h.on_moved
  | .created => h.on_created
  | .deleted => h.on_deleted
  | .modified => h.on_modified

end PollableFileSystemEventHandler

/-! Traces of `mark`/`unmark` calls against the activity bit. -/

/-- One call against the activity flag: `mark` is `mark_activity_occurred`,
`consume` is `unmark_activity_occurred`. -/
inductive FlagOp
  | mark
  | consume
deriving DecidableEq, Repr

/-- Apply one flag operation to the handler, keeping the updated handler. -/
def applyOp (h : PollableFileSystemEventHandler) : FlagOp → PollableFileSystemEventHandler
  | .mark => (h.mark_activity_occurred).2
  | .consume => (h.unmark_activity_occurred).2

/-- Run a trace of flag operations on a handler, left to right. -/
def runOps (h : PollableFileSystemEventHandler) (l : List FlagOp) :
    PollableFileSystemEventHandler :=
  l.foldl applyOp h

/-- The activity bit after running a trace from the bit value `b`. -/
def flagAfter (b : Bool) : List FlagOp → Bool
  | [] => b
  | .mark :: l => flagAfter true l
  | .consume :: l => flagAfter false l

/-- Whether a trace contains a `consume`. -/
def hasConsume : List FlagOp → Bool
  | [] => false
  | .mark :: l => hasConsume l
  | .consume :: _ => true

/-- Whether a trace contains a `mark` that no `consume` follows, i.e. a
mark since the most recent consume (or since the start when the trace has
no consume). -/
def markSinceLastConsume : List FlagOp → Bool
  | [] => false
  | .mark :: l => !hasConsume l || markSinceLastConsume l
  | .consume :: l => markSinceLastConsume l

/-! The supervisor control interface and the restart dispatch routine. -/

namespace ProcessStates

/-- supervisor.states.ProcessStates.STOPPED -/
def STOPPED : Nat := 0

/-- supervisor.states.ProcessStates.STARTING -/
def STARTING : Nat := 10

/-- supervisor.states.ProcessStates.RUNNING -/
def RUNNING : Nat := 20

/-- supervisor.states.ProcessStates.BACKOFF -/
def BACKOFF : Nat := 30

/-- supervisor.states.ProcessStates.STOPPING -/
def STOPPING : Nat := 40

/-- supervisor.states.ProcessStates.EXITED -/
def EXITED : Nat := 100

/-- supervisor.states.ProcessStates.FATAL -/
def FATAL : Nat := 200

end ProcessStates

/-- One entry of the `getAllProcessInfo` result: the fields the watcher
reads (name, group, numeric lifecycle state). -/
structure ProcInfo where
  name : String
  group : String
  state : Nat
deriving DecidableEq, Repr

/-- `supervisor.options.make_namespec`: the daemon's `group:name` process
identifier, collapsing to the bare name when the group equals the name. -/
def make_namespec (group name : String) : String :=
  if group = name then name else group ++ ":" ++ name

/-- An exception raised by a remote call: an `xmlrpclib.Fault` carrying a
human-readable reason, or any other exception (transport failures etc.).
Only Faults are caught by the per-process `try` blocks of the dispatch. -/
inductive RpcErr
  | fault (msg : String)
  | other (msg : String)
deriving DecidableEq, Repr

/-- The remote control interface as seen by one dispatch: the outcome of
`getAllProcessInfo`, and the outcome of `stopProcess`/`startProcess` per
namespec (each is called at most once per dispatch). -/
structure Rpc where
  getAllProcessInfo : Except RpcErr (List ProcInfo)
  stopProcess : String → Except RpcErr Unit
  startProcess : String → Except RpcErr Unit

/-- Output channel of a `print` call: `stdout` is the listener-protocol
channel to the daemon, `stderr` the diagnostic stream. -/
inductive Chan
  | stdout
  | stderr
deriving DecidableEq, Repr

/-- The messages `_restart_processes` prints, by constructor with payload
rather than formatted text. -/
inductive Msg
  | unableToGetInfo (err : RpcErr)
  | restarting (namespec : String)
  | unableToStop (namespec : String) (err : RpcErr)
  | unableToStart (namespec : String) (err : RpcErr)
  | restarted (namespec : String)
  | notRunning (namespec : String)
  | notFound (programs : List String)
deriving DecidableEq, Repr

/-- One remote call, recorded in issue order. -/
inductive Call
  | getAll
  | stop (namespec : String)
  | start (namespec : String)
deriving DecidableEq, Repr

/-- Observable effects of a code fragment inside the dispatch: calls
issued, messages printed with their channel, and an exception escaping the
fragment, if any. -/
structure BodyOut where
  calls : List Call
  log : List (Chan × Msg)
  exc : Option RpcErr
deriving DecidableEq, Repr

/-- The `try: stopProcess(namespec) except Fault: print` statement: a
Fault is caught and reported, any other exception escapes. -/
def stopPhase (rpc : Rpc) (namespec : String) : BodyOut :=
  match rpc.stopProcess namespec with
  | Except.ok _ => ⟨[Call.stop namespec], [], none⟩
  | Except.error (RpcErr.fault e) =>
      ⟨[Call.stop namespec],
       [(Chan.stderr, Msg.unableToStop namespec (RpcErr.fault e))], none⟩
  | Except.error (RpcErr.other e) =>
      ⟨[Call.stop namespec], [], some (RpcErr.other e)⟩

/-- The `try: startProcess(namespec) except Fault: print else: print`
statement: success prints the restarted message, a Fault is caught and
reported, any other exception escapes. -/
def startPhase (rpc : Rpc) (namespec : String) : BodyOut :=
  match rpc.startProcess namespec with
  | Except.ok _ =>
      ⟨[Call.start namespec], [(Chan.stderr, Msg.restarted namespec)], none⟩
  | Except.error (RpcErr.fault e) =>
      ⟨[Call.start namespec],
       [(Chan.stderr, Msg.unableToStart namespec (RpcErr.fault e))], none⟩
  | Except.error (RpcErr.other e) =>
      ⟨[Call.start namespec], [], some (RpcErr.other e)⟩

/-- Sequencing of two statements: if an exception escapes the first, the
second does not run. -/
def seqBody (a b : BodyOut) : BodyOut :=
  match a.exc with
  | some e => ⟨a.calls, a.log, some e⟩
  | none => ⟨a.calls ++ b.calls, a.log ++ b.log, b.exc⟩

/-- Prepend a printed message to a fragment's log (the message is printed
before the fragment runs). -/
def prependLog (m : Chan × Msg) (b : BodyOut) : BodyOut :=
  ⟨b.calls, m :: b.log, b.exc⟩

/-- Loop body for a process that passed the membership test: if it is
RUNNING, print the restarting message, then the stop phase, then (unless
an exception escaped the stop phase) the start phase; otherwise print the
not-in-RUNNING-state message, which the source writes to `stdout` (the
`print` call has no `file=` argument, unlike every other report). -/
def candidateBody (rpc : Rpc) (p : ProcInfo) : BodyOut :=
  let namespec := make_namespec p.group p.name
  if p.state = ProcessStates.RUNNING then
    prependLog (Chan.stderr, Msg.restarting namespec)
      (seqBody (stopPhase rpc namespec) (startPhase rpc namespec))
  else
    ⟨[], [(Chan.stdout, Msg.notRunning namespec)], none⟩

/-- `waiting.discard(name); waiting.discard(namespec)` on the Python set
of still-unmatched targets. -/
def discardKeys (waiting : List String) (name namespec : String) : List String :=
  (waiting.filter (fun x => decide (x ≠ name))).filter (fun x => decide (x ≠ namespec))

/-- Result of the `for spec in specs` loop: calls, log, escaping
exception, and the final `waiting` set of unmatched targets. -/
structure LoopOut where
  calls : List Call
  log : List (Chan × Msg)
  exc : Option RpcErr
  waiting : List String
deriving DecidableEq, Repr

/-- The `for spec in specs` loop of `_restart_processes`: each process is
a candidate when `any_program` holds or its bare name or namespec is still
in `waiting`; a candidate's keys are discarded from `waiting` after its
body runs; an exception escaping a body aborts the loop. -/
def dispatchLoop (rpc : Rpc) (any_program : Bool) :
    List ProcInfo → List String → LoopOut
  | [], waiting => ⟨[], [], none, waiting⟩
  | p :: ps, waiting =>
    let namespec := make_namespec p.group p.name
    if any_program ∨ p.name ∈ waiting ∨ namespec ∈ waiting then
      let b := candidateBody rpc p
      match b.exc with
      | some e => ⟨b.calls, b.log, some e, waiting⟩
      | none =>
        let rest := dispatchLoop rpc any_program ps (discardKeys waiting p.name namespec)
        ⟨b.calls ++ rest.calls, b.log ++ rest.log, rest.exc, rest.waiting⟩
    else dispatchLoop rpc any_program ps waiting

/-- Observable outcome of one `_restart_processes` run: calls in order,
printed messages with their channel, the handler's activity bit
afterwards, and an uncaught exception if one propagates out. -/
structure DispatchOut where
  calls : List Call
  log : List (Chan × Msg)
  flag : Bool
  exc : Option RpcErr
deriving DecidableEq, Repr

/-- `FSEventWatcher._restart_processes`.  `flag` is the handler's activity
bit on entry; the routine touches it only in the fetch-failure branch,
where it re-marks it (sets it true) after reporting the error.  On a
successful fetch it runs the loop over the live process list with
`waiting = set(self.programs)` and finally reports the targets that
matched no process, if any remain. -/
def restart_processes (rpc : Rpc) (programs : List String) (any_program : Bool)
    (flag : Bool) : DispatchOut :=
  match rpc.getAllProcessInfo with
  | Except.error e =>
      ⟨[Call.getAll], [(Chan.stderr, Msg.unableToGetInfo e)], true, none⟩
  | Except.ok specs =>
      let r := dispatchLoop rpc any_program specs programs.dedup
      match r.exc with
      | some e => ⟨Call.getAll :: r.calls, r.log, flag, some e⟩
      | none =>
          ⟨Call.getAll :: r.calls,
           if r.waiting.isEmpty then r.log
           else r.log ++ [(Chan.stderr, Msg.notFound r.waiting)],
           flag, none⟩

/-! One iteration of the `runforever` tick loop. -/

/-- Python `s.startswith(pre)`, taken over the character sequence (the
built-in `String.startsWith` is implemented natively and does not reduce
inside the kernel, so the embedding uses the character-list equivalent). -/
def startswith (s pre : String) : Bool :=
  pre.data.isPrefixOf s.data

/-- Observable outcome of one iteration of the `while True` body of
`runforever`: whether `unmark_activity_occurred` was called, whether the
dispatch ran and its outcome, whether `childutils.listener.ok` was
written, the handler's activity bit afterwards, and an exception
propagating out of the iteration, if any. -/
structure TickOut where
  consumed : Bool
  dispatched : Bool
  dispatch : Option DispatchOut
  acked : Bool
  flag : Bool
  exc : Option RpcErr
deriving DecidableEq, Repr

/-- One iteration of `runforever`: receive a notification with the given
`eventname` while the handler's activity bit is `flag`.  The `and` in the
source short-circuits, so the flag is consumed only for `TICK`-prefixed
events; the dispatch runs exactly when that consume returned true; the
acknowledgement is written afterwards unless an exception propagated out
of the dispatch. -/
def tickStep (rpc : Rpc) (programs : List String) (any_program : Bool)
    (eventname : String) (flag : Bool) : TickOut :=
  if startswith eventname "TICK" then
    if flag then
      let d := restart_processes rpc programs any_program false
      match d.exc with
      | some e => ⟨true, true, some d, false, d.flag, some e⟩
      | none => ⟨true, true, some d, true, d.flag, none⟩
    else ⟨true, false, none, true, false, none⟩
  else ⟨false, false, none, true, flag, none⟩

/-! The startup sequence of `main`. -/

/-- The argparse namespace restricted to the arguments `main` adds.
`programs` is `none` when `-p` is absent and `some` of the collected list
otherwise.  The `--files-only`/`--dirs-only` options are commented out in
the source, so no such attributes exist on the namespace. -/
structure Args where
  programs : Option (List String)
  any_program : Bool
  paths : List String
  recursive : Bool
  watch_moved : Bool
  watch_created : Bool
  watch_deleted : Bool
  watch_modified : Bool
  watch_any : Bool
deriving DecidableEq, Repr

/-- Which `parser.error` call fired (usage message, non-zero exit). -/
inductive UsageErr
  | noPrograms
  | pathDoesNotExist (path : String)
  | noEventsSelected
  | filesOnlyAndDirsOnly
deriving DecidableEq, Repr

/-- How `main` ends before watching begins. -/
inductive MainOutcome
  | usageError (which : UsageErr)
  | attributeError (attr : String)
  | exitListenerDiag
  | keyErrorPropagated (key : String)
  | runs
deriving DecidableEq, Repr

/-- Python truthiness of `args.programs` (a missing flag is `None`, an
empty list is falsy). -/
def programsTruthy : Option (List String) → Bool
  | none => false
  | some l => !l.isEmpty

/-- `main` after argument parsing: the three validation checks, then the
leftover `if args.files_only and args.dirs_only` check — those options
were commented out of the parser, so the attribute access raises
`AttributeError` and nothing after it (the `getRPCInterface` environment
check included) is ever reached.  `pathExists` embeds `os.path.exists`;
`envHasServerUrl` would model the presence of `SUPERVISOR_SERVER_URL`. -/
def mainOutcome (args : Args) (pathExists : String → Bool)
    (envHasServerUrl : Bool) : MainOutcome :=
  if !(programsTruthy args.programs || args.any_program) then
    MainOutcome.usageError UsageErr.noPrograms
  else
    match args.paths.find? (fun p => !pathExists p) with
    | some p => MainOutcome.usageError (UsageErr.pathDoesNotExist p)
    | none =>
      if !(args.watch_moved || args.watch_created || args.watch_deleted ||
           args.watch_modified || args.watch_any) then
        MainOutcome.usageError UsageErr.noEventsSelected
      else
        MainOutcome.attributeError "files_only"

/-! Supporting definitions and lemmas about the dispatch. -/

/-- The control interface raises only Faults (if anything) from
`stopProcess`/`startProcess`, so no exception escapes the per-process
`try` blocks. -/
def NoOtherErrors (rpc : Rpc) : Prop :=
  (∀ ns e, rpc.stopProcess ns ≠ Except.error (RpcErr.other e)) ∧
  (∀ ns e, rpc.startProcess ns ≠ Except.error (RpcErr.other e))

/-- The stop/start calls a candidate process receives: exactly one stop
followed by one start when it is RUNNING, none otherwise. -/
def callsFor (p : ProcInfo) : List Call :=
  if p.state = ProcessStates.RUNNING then
    [Call.stop (make_namespec p.group p.name), Call.start (make_namespec p.group p.name)]
  else []

/-- The calls the loop issues, spelled out spec-side: each process is a
candidate iff `any_program` holds or its bare name or namespec is among
the targets not yet matched by an earlier process. -/
def expectedCalls (any_program : Bool) : List ProcInfo → List String → List Call
  | [], _ => []
  | p :: ps, waiting =>
    if any_program ∨ p.name ∈ waiting ∨ make_namespec p.group p.name ∈ waiting then
      callsFor p
        ++ expectedCalls any_program ps
            (discardKeys waiting p.name (make_namespec p.group p.name))
    else expectedCalls any_program ps waiting

/-- Whether a target identifier matches some live process, by bare name or
by namespec. -/
def matchesLive (specs : List ProcInfo) (t : String) : Bool :=
  specs.any (fun p => decide (t = p.name ∨ t = make_namespec p.group p.name))

/-! Concrete control interfaces used to evaluate the embedding. -/

/-- A control interface whose process-list fetch raises. -/
def rpcFetchFails : Rpc :=
  ⟨Except.error (RpcErr.other "boom"), fun _ => Except.ok (), fun _ => Except.ok ()⟩

/-- An always-succeeding control interface with one RUNNING process
named `web` in group `web`. -/
def rpcAllOk : Rpc :=
  ⟨Except.ok [⟨"web", "web", ProcessStates.RUNNING⟩],
   fun _ => Except.ok (), fun _ => Except.ok ()⟩

/-- Two RUNNING processes both named `web`, in groups `g1` and `g2`, with
always-succeeding stop/start. -/
def rpcTwoWebs : Rpc :=
  ⟨Except.ok [⟨"web", "g1", ProcessStates.RUNNING⟩, ⟨"web", "g2", ProcessStates.RUNNING⟩],
   fun _ => Except.ok (), fun _ => Except.ok ()⟩

/-- One STOPPED process named `web` in group `web`. -/
def rpcStoppedWeb : Rpc :=
  ⟨Except.ok [⟨"web", "web", ProcessStates.STOPPED⟩],
   fun _ => Except.ok (), fun _ => Except.ok ()⟩

/-- Two RUNNING processes `a` and `b`; stopping `a` raises a non-Fault
(transport) exception. -/
def rpcStopRaises : Rpc :=
  ⟨Except.ok [⟨"a", "a", ProcessStates.RUNNING⟩, ⟨"b", "b", ProcessStates.RUNNING⟩],
   fun ns => if ns = "a" then Except.error (RpcErr.other "connection reset") else Except.ok (),
   fun _ => Except.ok ()⟩

/-- One RUNNING process `web`; its stop raises an `xmlrpclib.Fault` and
its start succeeds. -/
def rpcStopFaults : Rpc :=
  ⟨Except.ok [⟨"web", "web", ProcessStates.RUNNING⟩],
   fun _ => Except.error (RpcErr.fault "no such process"), fun _ => Except.ok ()⟩

/-! Supporting lemmas about flag traces. -/

theorem runOps_activity (h : PollableFileSystemEventHandler) (l : List FlagOp) :
    (runOps h l).activity_occurred = flagAfter h.activity_occurred l := by
  induction l generalizing h with
  | nil => rfl
  | cons op l ih =>
    cases op with
    | mark =>
      show (runOps (applyOp h .mark) l).activity_occurred = _
      rw [ih]
      rfl
    | consume =>
      show (runOps (applyOp h .consume) l).activity_occurred = _
      rw [ih]
      rfl

theorem flagAfter_eq (b : Bool) (l : List FlagOp) :
    flagAfter b l = ((b && !hasConsume l) || markSinceLastConsume l) := by
  induction l generalizing b with
  | nil => cases b <;> rfl
  | cons op l ih =>
    cases op with
    | mark =>
      show flagAfter true l = _
      rw [ih]
      show (true && !hasConsume l || markSinceLastConsume l)
        = (b && !hasConsume l || (!hasConsume l || markSinceLastConsume l))
      cases b <;> cases hasConsume l <;> cases markSinceLastConsume l <;> rfl
    | consume =>
      show flagAfter false l = _
      rw [ih]
      show (false && !hasConsume l || markSinceLastConsume l)
        = (b && !true || markSinceLastConsume l)
      cases b <;> cases markSinceLastConsume l <;> rfl

/-! The C1 claim theorem. -/

open PollableFileSystemEventHandler in
/-- C1: `mark_activity_occurred` sets the activity flag to true and
returns the value it held just before the call; `unmark_activity_occurred`
returns the value held just before the call and resets the flag to false.
Consequently, for every call sequence run from a fresh handler, a consume
returns true iff some mark occurred since the previous consume (false on a
fresh flag), and two consecutive consumes yield the previous value and
then false. -/
theorem mark_consume_spec :
    (∀ h, (mark_activity_occurred h).1 = h.activity_occurred
        ∧ (mark_activity_occurred h).2.activity_occurred = true)
    ∧ (∀ h, (unmark_activity_occurred h).1 = h.activity_occurred
        ∧ (unmark_activity_occurred h).2.activity_occurred = false)
    ∧ (∀ m c d md l, (unmark_activity_occurred (runOps (init m c d md) l)).1
        = markSinceLastConsume l)
    ∧ (∀ m c d md, (unmark_activity_occurred (init m c d md)).1 = false)
    ∧ (∀ h, (unmark_activity_occurred h).1 = h.activity_occurred
        ∧ (unmark_activity_occurred ((unmark_activity_occurred h).2)).1 = false) := by
  refine ⟨fun h => ⟨rfl, rfl⟩, fun h => ⟨rfl, rfl⟩, fun m c d md l => ?_,
    fun m c d md => rfl, fun h => ⟨rfl, rfl⟩⟩
  show (runOps (init m c d md) l).activity_occurred = markSinceLastConsume l
  rw [runOps_activity, flagAfter_eq]
  rfl

open PollableFileSystemEventHandler in
/-- C4: for every incoming filesystem event of kind `k`, the handler calls
`mark_activity_occurred` iff the watch flag for `k` is true; a non-watched
kind leaves the handler unchanged.  In particular, with only `modified`
watched, a created event does not set the flag and a modified event does. -/
theorem on_event_marks_iff :
    (∀ h k, (on_event h k).2 = h.watches k
      ∧ on_event h k
          = (if h.watches k then ((h.mark_activity_occurred).2, true) else (h, false)))
    ∧ ((PollableFileSystemEventHandler.on_event (init false false false true)
          EventKind.created).1.activity_occurred = false)
    ∧ ((PollableFileSystemEventHandler.on_event (init false false false true)
          EventKind.modified).1.activity_occurred = true) := by
  refine ⟨fun h k => ⟨?_, ?_⟩, rfl, rfl⟩
  · cases k <;>
      simp only [on_event, on_moved, on_created, on_deleted, on_modified, watches] <;>
      split <;> simp_all
  · cases k <;> rfl

theorem stopPhase_calls (rpc : Rpc) (ns : String) :
    (stopPhase rpc ns).calls = [Call.stop ns] := by
  unfold stopPhase
  split <;> rfl

theorem startPhase_calls (rpc : Rpc) (ns : String) :
    (startPhase rpc ns).calls = [Call.start ns] := by
  unfold startPhase
  split <;> rfl

theorem stopPhase_exc_none (rpc : Rpc) (ns : String)
    (h : ∀ e, rpc.stopProcess ns ≠ Except.error (RpcErr.other e)) :
    (stopPhase rpc ns).exc = none := by
  unfold stopPhase
  split
  · rfl
  · rfl
  · next e heq => exact absurd heq (h e)

theorem startPhase_exc_none (rpc : Rpc) (ns : String)
    (h : ∀ e, rpc.startProcess ns ≠ Except.error (RpcErr.other e)) :
    (startPhase rpc ns).exc = none := by
  unfold startPhase
  split
  · rfl
  · rfl
  · next e heq => exact absurd heq (h e)

theorem candidateBody_exc_none (rpc : Rpc) (p : ProcInfo) (hno : NoOtherErrors rpc) :
    (candidateBody rpc p).exc = none := by
  unfold candidateBody
  split
  · show (prependLog _ (seqBody _ _)).exc = none
    unfold prependLog seqBody
    rw [stopPhase_exc_none rpc _ (fun e => hno.1 _ e)]
    exact startPhase_exc_none rpc _ (fun e => hno.2 _ e)
  · rfl

theorem candidateBody_calls (rpc : Rpc) (p : ProcInfo) (hno : NoOtherErrors rpc) :
    (candidateBody rpc p).calls = callsFor p := by
  unfold candidateBody callsFor
  split
  · show (prependLog _ (seqBody _ _)).calls = _
    unfold prependLog seqBody
    rw [stopPhase_exc_none rpc _ (fun e => hno.1 _ e)]
    show (stopPhase rpc _).calls ++ (startPhase rpc _).calls = _
    rw [stopPhase_calls, startPhase_calls]
    rfl
  · rfl

theorem dispatchLoop_exc_none (rpc : Rpc) (any_program : Bool) (hno : NoOtherErrors rpc) :
    ∀ (specs : List ProcInfo) (waiting : List String),
      (dispatchLoop rpc any_program specs waiting).exc = none := by
  intro specs
  induction specs with
  | nil => intro waiting; rfl
  | cons p ps ih =>
    intro waiting
    rw [dispatchLoop]
    split
    · simp only [candidateBody_exc_none rpc p hno]
      exact ih _
    · exact ih _

theorem dispatchLoop_calls (rpc : Rpc) (any_program : Bool) (hno : NoOtherErrors rpc) :
    ∀ (specs : List ProcInfo) (waiting : List String),
      (dispatchLoop rpc any_program specs waiting).calls
        = expectedCalls any_program specs waiting := by
  intro specs
  induction specs with
  | nil => intro waiting; rfl
  | cons p ps ih =>
    intro waiting
    rw [dispatchLoop, expectedCalls]
    split
    · simp only [candidateBody_exc_none rpc p hno, candidateBody_calls rpc p hno]
      rw [ih]
    · exact ih _

theorem dispatchLoop_waiting (rpc : Rpc) (any_program : Bool) (hno : NoOtherErrors rpc) :
    ∀ (specs : List ProcInfo) (waiting : List String),
      (dispatchLoop rpc any_program specs waiting).waiting
        = waiting.filter (fun t => !matchesLive specs t) := by
  intro specs
  induction specs with
  | nil =>
    intro waiting
    show waiting = waiting.filter (fun t => !matchesLive [] t)
    simp [matchesLive]
  | cons p ps ih =>
    intro waiting
    rw [dispatchLoop]
    split
    · next hc =>
      simp only [candidateBody_exc_none rpc p hno]
      rw [ih]
      unfold discardKeys
      rw [List.filter_filter, List.filter_filter]
      refine List.filter_congr (fun t ht => ?_)
      by_cases h1 : t = p.name <;> by_cases h2 : t = make_namespec p.group p.name <;>
        simp [matchesLive, h1, h2]
    · next hc =>
      push_neg at hc
      rw [ih]
      refine List.filter_congr (fun t ht => ?_)
      have h1 : t ≠ p.name := fun h => hc.2.1 (h ▸ ht)
      have h2 : t ≠ make_namespec p.group p.name := fun h => hc.2.2 (h ▸ ht)
      simp [matchesLive, h1, h2]

theorem stopPhase_no_notFound (rpc : Rpc) (ns : String) (ch : Chan) (l : List String) :
    (ch, Msg.notFound l) ∉ (stopPhase rpc ns).log := by
  unfold stopPhase
  split <;> simp

theorem startPhase_no_notFound (rpc : Rpc) (ns : String) (ch : Chan) (l : List String) :
    (ch, Msg.notFound l) ∉ (startPhase rpc ns).log := by
  unfold startPhase
  split <;> simp

theorem candidateBody_no_notFound (rpc : Rpc) (p : ProcInfo) (ch : Chan) (l : List String) :
    (ch, Msg.notFound l) ∉ (candidateBody rpc p).log := by
  unfold candidateBody
  split
  · show (ch, Msg.notFound l) ∉ (prependLog _ (seqBody _ _)).log
    unfold prependLog seqBody
    split
    · next heq =>
      simp only [List.mem_cons]
      rintro (h | h)
      · exact Prod.noConfusion h (fun _ hm => Msg.noConfusion hm)
      · exact stopPhase_no_notFound rpc _ ch l h
    · simp only [List.mem_cons, List.mem_append]
      rintro (h | h | h)
      · exact Prod.noConfusion h (fun _ hm => Msg.noConfusion hm)
      · exact stopPhase_no_notFound rpc _ ch l h
      · exact startPhase_no_notFound rpc _ ch l h
  · simp

theorem dispatchLoop_no_notFound (rpc : Rpc) (any_program : Bool) :
    ∀ (specs : List ProcInfo) (waiting : List String) (ch : Chan) (l : List String),
      (ch, Msg.notFound l) ∉ (dispatchLoop rpc any_program specs waiting).log := by
  intro specs
  induction specs with
  | nil => intro waiting ch l; simp [dispatchLoop]
  | cons p ps ih =>
    intro waiting ch l
    rw [dispatchLoop]
    split
    · cases hexc : (candidateBody rpc p).exc with
      | some e =>
        simp only [hexc]
        exact candidateBody_no_notFound rpc p ch l
      | none =>
        simp only [hexc, List.mem_append]
        rintro (h | h)
        · exact candidateBody_no_notFound rpc p ch l h
        · exact ih _ ch l h
    · exact ih _ ch l

theorem expectedCalls_mem (any_program : Bool) :
    ∀ (specs : List ProcInfo) (waiting : List String) (c : Call),
      c ∈ expectedCalls any_program specs waiting →
      ∃ p ∈ specs, p.state = ProcessStates.RUNNING ∧
        (c = Call.stop (make_namespec p.group p.name)
          ∨ c = Call.start (make_namespec p.group p.name)) := by
  intro specs
  induction specs with
  | nil => intro waiting c hc; simp [expectedCalls] at hc
  | cons p ps ih =>
    intro waiting c hc
    rw [expectedCalls] at hc
    split at hc
    · rw [List.mem_append] at hc
      rcases hc with hc | hc
      · unfold callsFor at hc
        split at hc
        · next hrun =>
          simp only [List.mem_cons, List.not_mem_nil, or_false] at hc
          rcases hc with hc | hc
          · exact ⟨p, List.mem_cons_self p ps, hrun, Or.inl hc⟩
          · exact ⟨p, List.mem_cons_self p ps, hrun, Or.inr hc⟩
        · simp at hc
      · obtain ⟨q, hq, hrest⟩ := ih _ c hc
        exact ⟨q, List.mem_cons_of_mem p hq, hrest⟩
    · obtain ⟨q, hq, hrest⟩ := ih _ c hc
      exact ⟨q, List.mem_cons_of_mem p hq, hrest⟩

theorem expectedCalls_any_true :
    ∀ (specs : List ProcInfo) (waiting : List String),
      expectedCalls true specs waiting = specs.flatMap callsFor := by
  intro specs
  induction specs with
  | nil => intro waiting; rfl
  | cons p ps ih =>
    intro waiting
    rw [expectedCalls, if_pos (Or.inl rfl), List.flatMap_cons, ih]

theorem stopPhase_no_restarted (rpc : Rpc) (ns ns2 : String) :
    (Chan.stderr, Msg.restarted ns2) ∉ (stopPhase rpc ns).log := by
  unfold stopPhase
  split <;> simp

theorem restart_exc_none (rpc : Rpc) (programs : List String)
    (any_program flag : Bool) (hno : NoOtherErrors rpc) :
    (restart_processes rpc programs any_program flag).exc = none := by
  unfold restart_processes
  cases hga : rpc.getAllProcessInfo with
  | error e => rfl
  | ok specs =>
    simp only [dispatchLoop_exc_none rpc any_program hno specs programs.dedup]

/-! The remaining claim theorems. -/

/-- C2: if `getAllProcessInfo` raises, the dispatch reports the error on
the diagnostic stream, issues no stop or start calls for that tick, does
not itself raise, and re-marks the activity flag, so the flag is true
again afterwards and any subsequent TICK notification consumes true and
dispatches again (at-least-once: a fetch failure never loses the pending
restart signal). -/
theorem fetch_failure_preserves_signal (rpc : Rpc) (programs : List String)
    (any_program flag : Bool) (e : RpcErr)
    (herr : rpc.getAllProcessInfo = Except.error e) :
    (restart_processes rpc programs any_program flag).calls = [Call.getAll]
    ∧ (restart_processes rpc programs any_program flag).log
        = [(Chan.stderr, Msg.unableToGetInfo e)]
    ∧ (restart_processes rpc programs any_program flag).flag = true
    ∧ (restart_processes rpc programs any_program flag).exc = none
    ∧ (∀ (rpc2 : Rpc) (ev : String), startswith ev "TICK" = true →
        (tickStep rpc2 programs any_program ev
          (restart_processes rpc programs any_program flag).flag).dispatched = true) := by
  have hres : restart_processes rpc programs any_program flag
      = ⟨[Call.getAll], [(Chan.stderr, Msg.unableToGetInfo e)], true, none⟩ := by
    unfold restart_processes
    rw [herr]
  refine ⟨by rw [hres], by rw [hres], by rw [hres], by rw [hres], ?_⟩
  intro rpc2 ev hev
  rw [hres]
  show (tickStep rpc2 programs any_program ev true).dispatched = true
  unfold tickStep
  rw [if_pos hev]
  cases hd : (restart_processes rpc2 programs any_program false).exc <;> simp [hd]

/-- Witness for C2 at a concrete failing control interface. -/
theorem fetch_failure_preserves_signal_witness :
    (restart_processes rpcFetchFails ["web"] false false).calls = [Call.getAll]
    ∧ (restart_processes rpcFetchFails ["web"] false false).flag = true
    ∧ (tickStep rpcAllOk ["web"] false "TICK60"
        (restart_processes rpcFetchFails ["web"] false false).flag).dispatched = true := by
  have h := fetch_failure_preserves_signal rpcFetchFails ["web"] false false
    (RpcErr.other "boom") rfl
  exact ⟨h.1, h.2.2.1, h.2.2.2.2 rpcAllOk "TICK60" (by decide)⟩

/-- C3 counterexample: with targets `{web}` and live list `[⟨web, g1,
RUNNING⟩, ⟨web, g2, RUNNING⟩]`, the second process's bare name is in the
target set and it is RUNNING, yet it receives no stop or start call: the
membership test consults the shrinking `waiting` set, from which the
first match already removed `web`. -/
theorem second_same_name_process_not_restarted :
    rpcTwoWebs.getAllProcessInfo
      = Except.ok [⟨"web", "g1", ProcessStates.RUNNING⟩,
                   ⟨"web", "g2", ProcessStates.RUNNING⟩]
    ∧ (⟨"web", "g2", ProcessStates.RUNNING⟩ : ProcInfo).name ∈ ["web"]
    ∧ (restart_processes rpcTwoWebs ["web"] false false).calls
        = [Call.getAll, Call.stop "g1:web", Call.start "g1:web"]
    ∧ Call.stop "g2:web" ∉ (restart_processes rpcTwoWebs ["web"] false false).calls
    ∧ Call.start "g2:web" ∉ (restart_processes rpcTwoWebs ["web"] false false).calls := by
  refine ⟨rfl, by decide, by decide, by decide, by decide⟩

/-- C3 (amended): provided stop/start raise at most Faults, a dispatch
with a successful fetch issues exactly `getAllProcessInfo` followed, in
live-list order, by one stop and then one start for every RUNNING
candidate and nothing for any other process — where a process is a
candidate iff `any_program` holds or its bare name or namespec is among
the targets not yet matched by an earlier live process.  With
`any_program = true` every RUNNING live process is stopped then started
regardless of the target set. -/
theorem restart_calls_characterized (rpc : Rpc) (programs : List String)
    (any_program flag : Bool) (specs : List ProcInfo)
    (hok : rpc.getAllProcessInfo = Except.ok specs) (hno : NoOtherErrors rpc) :
    (restart_processes rpc programs any_program flag).calls
      = Call.getAll :: expectedCalls any_program specs programs.dedup
    ∧ (restart_processes rpc programs true flag).calls
      = Call.getAll :: specs.flatMap callsFor := by
  constructor
  · have hexc := dispatchLoop_exc_none rpc any_program hno specs programs.dedup
    simp only [restart_processes, hok, hexc]
    rw [dispatchLoop_calls rpc any_program hno]
  · have hexc := dispatchLoop_exc_none rpc true hno specs programs.dedup
    simp only [restart_processes, hok, hexc]
    rw [dispatchLoop_calls rpc true hno, expectedCalls_any_true]

/-- Witness for C3 (amended) at a concrete interface: one RUNNING `web`
process, targets `{web, worker}`. -/
theorem restart_calls_characterized_witness :
    (restart_processes rpcAllOk ["web", "worker"] false false).calls
      = Call.getAll :: expectedCalls false
          [⟨"web", "web", ProcessStates.RUNNING⟩] (["web", "worker"].dedup)
    ∧ (restart_processes rpcAllOk ["web", "worker"] true false).calls
      = Call.getAll
          :: [(⟨"web", "web", ProcessStates.RUNNING⟩ : ProcInfo)].flatMap callsFor := by
  exact restart_calls_characterized rpcAllOk ["web", "worker"] false false
    [⟨"web", "web", ProcessStates.RUNNING⟩] rfl
    ⟨fun _ _ h => by simp [rpcAllOk] at h, fun _ _ h => by simp [rpcAllOk] at h⟩

/-- C5: evaluating the dispatch at a target process in STOPPED state: no
stop or start call is issued and the not-in-RUNNING-state report is
produced — but the source prints that one report without `file=`, so it
goes to `stdout`, the listener-protocol channel, not the diagnostic
stream the claim (and every other report in the routine) uses. -/
theorem not_running_report_goes_to_stdout :
    (restart_processes rpcStoppedWeb ["web"] false false).calls = [Call.getAll]
    ∧ (restart_processes rpcStoppedWeb ["web"] false false).log
        = [(Chan.stdout, Msg.notRunning "web")]
    ∧ (Chan.stderr, Msg.notRunning "web")
        ∉ (restart_processes rpcStoppedWeb ["web"] false false).log
    ∧ (restart_processes rpcStoppedWeb ["web"] false false).exc = none := by
  refine ⟨by decide, by decide, by decide, by decide⟩

/-- C6: with a successful fetch and no escaping exception, the target
identifiers matching no live process (by bare name or namespec) are
exactly the reported-not-found ones: if any exist, the not-found report
carrying exactly that set is printed on the diagnostic stream and none of
them receives a stop or start call; if every target matched some live
process, no not-found report is produced; and unmatched targets never
abort the attempt. -/
theorem unmatched_targets_reported (rpc : Rpc) (programs : List String)
    (any_program flag : Bool) (specs : List ProcInfo)
    (hok : rpc.getAllProcessInfo = Except.ok specs) (hno : NoOtherErrors rpc) :
    (programs.dedup.filter (fun t => !matchesLive specs t) ≠ [] →
      (Chan.stderr, Msg.notFound (programs.dedup.filter (fun t => !matchesLive specs t)))
        ∈ (restart_processes rpc programs any_program flag).log)
    ∧ (programs.dedup.filter (fun t => !matchesLive specs t) = [] →
      ∀ ch l, (ch, Msg.notFound l) ∉ (restart_processes rpc programs any_program flag).log)
    ∧ (∀ t ∈ programs.dedup.filter (fun t => !matchesLive specs t),
        Call.stop t ∉ (restart_processes rpc programs any_program flag).calls
        ∧ Call.start t ∉ (restart_processes rpc programs any_program flag).calls)
    ∧ (restart_processes rpc programs any_program flag).exc = none := by
  have hexc := dispatchLoop_exc_none rpc any_program hno specs programs.dedup
  have hw := dispatchLoop_waiting rpc any_program hno specs programs.dedup
  have hcalls : (restart_processes rpc programs any_program flag).calls
      = Call.getAll :: expectedCalls any_program specs programs.dedup := by
    simp only [restart_processes, hok, hexc]
    rw [dispatchLoop_calls rpc any_program hno]
  refine ⟨?_, ?_, ?_, ?_⟩
  · intro hne
    simp only [restart_processes, hok, hexc]
    rw [hw, if_neg (by simp [hne])]
    exact List.mem_append_right _ (List.mem_singleton.mpr rfl)
  · intro he ch l
    simp only [restart_processes, hok, hexc]
    rw [hw, he]
    simp only [List.isEmpty_nil, if_true]
    exact dispatchLoop_no_notFound rpc any_program specs programs.dedup ch l
  · intro t ht
    have hmt : matchesLive specs t = false := by
      have := (List.mem_filter.mp ht).2
      simpa using this
    constructor
    · intro hmem
      rw [hcalls] at hmem
      rcases List.mem_cons.mp hmem with hmem | hmem
      · exact Call.noConfusion hmem
      · obtain ⟨p, hp, _, heq | heq⟩ := expectedCalls_mem any_program specs programs.dedup _ hmem
        · have hts : t = make_namespec p.group p.name := by
            exact Call.stop.inj heq
          have : matchesLive specs t = true := by
            unfold matchesLive
            rw [List.any_eq_true]
            exact ⟨p, hp, by simp [hts]⟩
          rw [hmt] at this
          exact Bool.noConfusion this
        · exact Call.noConfusion heq
    · intro hmem
      rw [hcalls] at hmem
      rcases List.mem_cons.mp hmem with hmem | hmem
      · exact Call.noConfusion hmem
      · obtain ⟨p, hp, _, heq | heq⟩ := expectedCalls_mem any_program specs programs.dedup _ hmem
        · exact Call.noConfusion heq
        · have hts : t = make_namespec p.group p.name := by
            exact Call.start.inj heq
          have : matchesLive specs t = true := by
            unfold matchesLive
            rw [List.any_eq_true]
            exact ⟨p, hp, by simp [hts]⟩
          rw [hmt] at this
          exact Bool.noConfusion this
  · exact restart_exc_none rpc programs any_program flag hno

/-- Witness for C6: target `worker` matches no live process: it is in the
not-found report and receives no stop call. -/
theorem unmatched_targets_reported_witness :
    (Chan.stderr, Msg.notFound (["web", "worker"].dedup.filter
        (fun t => !matchesLive [⟨"web", "web", ProcessStates.RUNNING⟩] t)))
      ∈ (restart_processes rpcAllOk ["web", "worker"] false false).log
    ∧ Call.stop "worker" ∉ (restart_processes rpcAllOk ["web", "worker"] false false).calls := by
  have h := unmatched_targets_reported rpcAllOk ["web", "worker"] false false
    [⟨"web", "web", ProcessStates.RUNNING⟩] rfl
    ⟨fun _ _ hh => by simp [rpcAllOk] at hh, fun _ _ hh => by simp [rpcAllOk] at hh⟩
  exact ⟨h.1 (by decide), (h.2.2.1 "worker" (by decide)).1⟩

/-- C7 counterexample: a non-Fault (transport) exception from
`stopProcess` is not caught: it escapes the dispatch, the second RUNNING
process `b` is never processed, and no start call is attempted, so not
every stop/start failure is non-fatal. -/
theorem stop_transport_error_fatal :
    (restart_processes rpcStopRaises ["a", "b"] false false).exc
        = some (RpcErr.other "connection reset")
    ∧ (restart_processes rpcStopRaises ["a", "b"] false false).calls
        = [Call.getAll, Call.stop "a"]
    ∧ Call.stop "b" ∉ (restart_processes rpcStopRaises ["a", "b"] false false).calls
    ∧ Call.start "a" ∉ (restart_processes rpcStopRaises ["a", "b"] false false).calls := by
  refine ⟨by decide, by decide, by decide, by decide⟩

/-- C7 (amended): `xmlrpclib.Fault` failures of stop/start are non-fatal:
each is caught independently and reported distinctly (unable-to-stop on a
stop Fault, unable-to-start on a start Fault, restarted on success and
only then), dispatch proceeds through the whole live list, and each
candidate gets at most one stop followed by one start per tick, with no
retry.  Only Faults are caught, so this assumes stop/start raise at most
Faults; a non-Fault exception instead escapes the dispatch. -/
theorem fault_failures_nonfatal (rpc : Rpc) (programs : List String)
    (any_program flag : Bool) (specs : List ProcInfo)
    (hok : rpc.getAllProcessInfo = Except.ok specs) (hno : NoOtherErrors rpc) :
    (restart_processes rpc programs any_program flag).exc = none
    ∧ (restart_processes rpc programs any_program flag).calls
        = Call.getAll :: expectedCalls any_program specs programs.dedup
    ∧ (∀ p e, p.state = ProcessStates.RUNNING →
        rpc.stopProcess (make_namespec p.group p.name) = Except.error (RpcErr.fault e) →
        (Chan.stderr, Msg.unableToStop (make_namespec p.group p.name) (RpcErr.fault e))
          ∈ (candidateBody rpc p).log)
    ∧ (∀ p e, p.state = ProcessStates.RUNNING →
        rpc.startProcess (make_namespec p.group p.name) = Except.error (RpcErr.fault e) →
        (Chan.stderr, Msg.unableToStart (make_namespec p.group p.name) (RpcErr.fault e))
          ∈ (candidateBody rpc p).log
        ∧ (Chan.stderr, Msg.restarted (make_namespec p.group p.name))
            ∉ (candidateBody rpc p).log)
    ∧ (∀ p, p.state = ProcessStates.RUNNING →
        rpc.startProcess (make_namespec p.group p.name) = Except.ok () →
        (Chan.stderr, Msg.restarted (make_namespec p.group p.name))
          ∈ (candidateBody rpc p).log) := by
  refine ⟨restart_exc_none rpc programs any_program flag hno, ?_, ?_, ?_, ?_⟩
  · have hexc := dispatchLoop_exc_none rpc any_program hno specs programs.dedup
    simp only [restart_processes, hok, hexc]
    rw [dispatchLoop_calls rpc any_program hno]
  · intro p e hrun hstop
    unfold candidateBody
    rw [if_pos hrun]
    unfold prependLog seqBody
    have hs : stopPhase rpc (make_namespec p.group p.name)
        = ⟨[Call.stop (make_namespec p.group p.name)],
           [(Chan.stderr, Msg.unableToStop (make_namespec p.group p.name) (RpcErr.fault e))],
           none⟩ := by
      unfold stopPhase
      rw [hstop]
    rw [hs]
    simp
  · intro p e hrun hstart
    unfold candidateBody
    rw [if_pos hrun]
    unfold prependLog seqBody
    have hsx := stopPhase_exc_none rpc (make_namespec p.group p.name)
      (fun e2 => hno.1 _ e2)
    rw [hsx]
    have ht : startPhase rpc (make_namespec p.group p.name)
        = ⟨[Call.start (make_namespec p.group p.name)],
           [(Chan.stderr, Msg.unableToStart (make_namespec p.group p.name) (RpcErr.fault e))],
           none⟩ := by
      unfold startPhase
      rw [hstart]
    rw [ht]
    constructor
    · simp
    · simp only [List.mem_cons, List.mem_append]
      rintro (h | h | h)
      · exact Prod.noConfusion h (fun _ hm => Msg.noConfusion hm)
      · exact stopPhase_no_restarted rpc _ _ h
      · simp at h
  · intro p hrun hstart
    unfold candidateBody
    rw [if_pos hrun]
    unfold prependLog seqBody
    have hsx := stopPhase_exc_none rpc (make_namespec p.group p.name)
      (fun e2 => hno.1 _ e2)
    rw [hsx]
    have ht : startPhase rpc (make_namespec p.group p.name)
        = ⟨[Call.start (make_namespec p.group p.name)],
           [(Chan.stderr, Msg.restarted (make_namespec p.group p.name))], none⟩ := by
      unfold startPhase
      rw [hstart]
    rw [ht]
    simp

/-- Witness for C7 (amended): a stop Fault is reported and does not abort
the dispatch. -/
theorem fault_failures_nonfatal_witness :
    (restart_processes rpcStopFaults ["web"] false false).exc = none
    ∧ (Chan.stderr, Msg.unableToStop "web" (RpcErr.fault "no such process"))
        ∈ (candidateBody rpcStopFaults ⟨"web", "web", ProcessStates.RUNNING⟩).log := by
  have h := fault_failures_nonfatal rpcStopFaults ["web"] false false
    [⟨"web", "web", ProcessStates.RUNNING⟩] rfl
    ⟨fun _ _ hh => by simp [rpcStopFaults] at hh, fun _ _ hh => by simp [rpcStopFaults] at hh⟩
  have h3 := h.2.2.1 ⟨"web", "web", ProcessStates.RUNNING⟩ "no such process" rfl rfl
  have hn : make_namespec "web" "web" = "web" := by decide
  rw [hn] at h3
  exact ⟨h.1, h3⟩

/-- C8 counterexample: on a TICK notification with the flag set, a
non-Fault exception from `stopProcess` propagates out of the dispatch and
the iteration ends before `childutils.listener.ok` is written — the
notification is not acknowledged, so acknowledgement does not hold
regardless of dispatch outcome. -/
theorem tick_not_acked_on_transport_error :
    (tickStep rpcStopRaises ["a", "b"] false "TICK60" true).acked = false
    ∧ (tickStep rpcStopRaises ["a", "b"] false "TICK60" true).exc
        = some (RpcErr.other "connection reset") := by
  refine ⟨by decide, by decide⟩

/-- C8 (amended): in a tick-loop iteration the activity flag is consumed
iff the notification's eventname starts with TICK; the dispatch runs iff
that consume returned true; a non-TICK notification is acknowledged with
the flag untouched and no dispatch; and the notification is acknowledged
exactly when no exception propagates out of the dispatch — in particular
always, whenever stop/start raise at most Faults. -/
theorem tick_loop_iteration (rpc : Rpc) (programs : List String)
    (any_program : Bool) (ev : String) (flag : Bool) :
    (tickStep rpc programs any_program ev flag).consumed = startswith ev "TICK"
    ∧ (tickStep rpc programs any_program ev flag).dispatched
        = (startswith ev "TICK" && flag)
    ∧ (tickStep rpc programs any_program ev flag).acked
        = (tickStep rpc programs any_program ev flag).exc.isNone
    ∧ (startswith ev "TICK" = false →
        (tickStep rpc programs any_program ev flag).flag = flag
        ∧ (tickStep rpc programs any_program ev flag).dispatch = none
        ∧ (tickStep rpc programs any_program ev flag).acked = true)
    ∧ (NoOtherErrors rpc →
        (tickStep rpc programs any_program ev flag).exc = none
        ∧ (tickStep rpc programs any_program ev flag).acked = true) := by
  cases hts : startswith ev "TICK" with
  | false => simp [tickStep, hts]
  | true =>
    cases flag with
    | false => simp [tickStep, hts]
    | true =>
      cases hd : (restart_processes rpc programs any_program false).exc with
      | some e =>
        have hstep : tickStep rpc programs any_program ev true
            = ⟨true, true, some (restart_processes rpc programs any_program false), false,
               (restart_processes rpc programs any_program false).flag, some e⟩ := by
          unfold tickStep
          rw [if_pos hts]
          simp [hd]
        rw [hstep]
        refine ⟨rfl, rfl, rfl, by simp, ?_⟩
        intro hno
        have hn := restart_exc_none rpc programs any_program false hno
        rw [hd] at hn
        exact Option.noConfusion hn
      | none =>
        simp [tickStep, hts, hd]

/-- Witness for C8 (amended): a non-TICK notification is acknowledged
with the flag untouched; a TICK notification with the flag set
dispatches. -/
theorem tick_loop_iteration_witness :
    (tickStep rpcAllOk ["web"] false "PROCESS_STATE_EXITED" true).flag = true
    ∧ (tickStep rpcAllOk ["web"] false "PROCESS_STATE_EXITED" true).acked = true
    ∧ (tickStep rpcAllOk ["web"] false "TICK60" true).dispatched = true := by
  have h := tick_loop_iteration rpcAllOk ["web"] false "PROCESS_STATE_EXITED" true
  have h2 := tick_loop_iteration rpcAllOk ["web"] false "TICK60" true
  refine ⟨(h.2.2.2.1 (by decide)).1, (h.2.2.2.1 (by decide)).2.2, ?_⟩
  rw [h2.2.1]
  decide

/-- C9: when the command-line arguments pass all three validation checks,
`main` hits the leftover `if args.files_only and args.dirs_only` check;
those options are commented out of the parser, so the attribute access
raises an unhandled `AttributeError`, and with `SUPERVISOR_SERVER_URL`
absent the promised run-as-a-listener diagnostic with exit status 1 is
never reached. -/
theorem main_attribute_error_before_env_check (args : Args)
    (pathExists : String → Bool) (envHasServerUrl : Bool)
    (h1 : (programsTruthy args.programs || args.any_program) = true)
    (h2 : ∀ p ∈ args.paths, pathExists p = true)
    (h3 : (args.watch_moved || args.watch_created || args.watch_deleted ||
           args.watch_modified || args.watch_any) = true) :
    mainOutcome args pathExists envHasServerUrl = MainOutcome.attributeError "files_only"
    ∧ mainOutcome args pathExists envHasServerUrl ≠ MainOutcome.exitListenerDiag := by
  have hfind : args.paths.find? (fun p => !pathExists p) = none := by
    rw [List.find?_eq_none]
    intro x hx
    simp [h2 x hx]
  have hmain : mainOutcome args pathExists envHasServerUrl
      = MainOutcome.attributeError "files_only" := by
    simp [mainOutcome, h1, hfind, h3]
  refine ⟨hmain, ?_⟩
  rw [hmain]
  simp

/-- Witness for C9: valid arguments (`-a -f /tmp --watch-any`) with every
path existing and the environment variable absent end in the
`AttributeError`. -/
theorem main_attribute_error_before_env_check_witness :
    mainOutcome ⟨none, true, ["/tmp"], false, false, false, false, false, true⟩
      (fun _ => true) false = MainOutcome.attributeError "files_only" := by
  exact (main_attribute_error_before_env_check
    ⟨none, true, ["/tmp"], false, false, false, false, false, true⟩
    (fun _ => true) false (by decide) (fun p hp => rfl) (by decide)).1

/-- C10: dispatch re-marks the activity flag only in the fetch-failure
branch: entered with the flag false (as right after the tick's consume),
a dispatch whose fetch succeeded leaves the flag false — including when
stop or start calls failed — so no later tick re-dispatches until a new
qualifying filesystem event marks the flag again; a dispatch whose fetch
failed leaves the flag true. -/
theorem flag_false_unless_fetch_failed (rpcA rpcB : Rpc)
    (programs : List String) (any_program : Bool) (specs : List ProcInfo) (e : RpcErr)
    (hok : rpcA.getAllProcessInfo = Except.ok specs)
    (herr : rpcB.getAllProcessInfo = Except.error e) :
    (restart_processes rpcA programs any_program false).flag = false
    ∧ (∀ (ev : String) (rpc2 : Rpc), (tickStep rpc2 programs any_program ev
        (restart_processes rpcA programs any_program false).flag).dispatched = false)
    ∧ (restart_processes rpcB programs any_program false).flag = true := by
  have hA : (restart_processes rpcA programs any_program false).flag = false := by
    simp only [restart_processes, hok]
    cases hd : (dispatchLoop rpcA any_program specs programs.dedup).exc <;> simp [hd]
  refine ⟨hA, ?_, ?_⟩
  · intro ev rpc2
    rw [hA]
    unfold tickStep
    cases hts : startswith ev "TICK" <;> simp [hts]
  · simp only [restart_processes, herr]

/-- Witness for C10: a dispatch whose stop call Faulted still leaves the
flag false and the next tick does not re-dispatch; a failed fetch leaves
it true. -/
theorem flag_false_unless_fetch_failed_witness :
    (restart_processes rpcStopFaults ["web"] false false).flag = false
    ∧ (tickStep rpcAllOk ["web"] false "TICK60"
        (restart_processes rpcStopFaults ["web"] false false).flag).dispatched = false
    ∧ (restart_processes rpcFetchFails ["web"] false false).flag = true := by
  have h := flag_false_unless_fetch_failed rpcStopFaults rpcFetchFails ["web"] false
    [⟨"web", "web", ProcessStates.RUNNING⟩] (RpcErr.other "boom") rfl rfl
  exact ⟨h.1, h.2.1 "TICK60" rpcAllOk, h.2.2⟩

end Fseventwatcher
